import Mathlib

/-!
Verification of the KVM-over-USB client core against its natural-language
specification.  The definitions below are a shallow embedding of
`src/client/controller_ch9329.py` (the CH9329 serial controller driver) and of
the input-handling slice of `src/client/main.py` (mouse/keyboard event
handlers of `MyMainWindow`).  Serial I/O is modelled by an explicit trace of
transport actions; Python `None` returns are modelled with `Option`.
-/

namespace KVM

/-- Transport-level actions performed on the serial connection or through the
pych9329 library.  Each constructor records one call that touches the
transport; a protocol operation that performs no serial I/O produces an empty
trace. -/
inductive SerialAct where
  | openPort (port : String) (baud : Int)
  | closePort
  | mouseAbsData (x y : Int) (button : String) (screenX screenY : Int) (wheel : Int)
  | mouseRelData (x y : Int) (button : String) (wheel : Int)
  | kbTrigger (keys functionKeys : List String)
  | kbReceiveIndicatorStatus
  | chipGetProduct
  | chipSendReset
  | mouseReleaseAll
  | keyboardReleaseAll
  deriving DecidableEq, Repr

/-- The live serial handle (`serial.Serial`): only its `is_open` flag is
observable to the driver code under verification. -/
structure SerialConn where
  isOpen : Bool
  deriving DecidableEq, Repr

/-- State of `ControllerCh9329`: port string, baud rate, the two screen
extents used for absolute scaling, and the optional serial handle
(`self.connection`). -/
structure Controller where
  port : String
  baud : Int
  screenX : Int
  screenY : Int
  connection : Option SerialConn
  deriving DecidableEq, Repr

/-- `ControllerCh9329.close_connection`: calls `.close()` on the handle when
one is present and always sets `self.connection = None`. -/
def closeConnection (c : Controller) : Controller × List SerialAct :=
  match c.connection with
  | none => ({ c with connection := none }, [])
  | some _ => ({ c with connection := none }, [SerialAct.closePort])

/-- `ControllerCh9329.create_connection`.  `openOk` is the environment's
answer to the `Serial(...)` constructor: `true` means the port opened,
`false` means it raised `SerialException` (which the code catches, setting
`self.connection = None`).  Returns the Python boolean result, the new
controller state and the transport trace. -/
def createConnection (c : Controller) (openOk : Bool) :
    Bool × Controller × List SerialAct :=
  if c.port = "" then (false, c, [])
  else
    let step1 : Controller × List SerialAct :=
      match c.connection with
      | none => (c, [])
      | some _ => closeConnection c
    if openOk then
      (true, { step1.1 with connection := some { isOpen := true } },
        step1.2 ++ [SerialAct.openPort c.port c.baud])
    else
      (false, { step1.1 with connection := none },
        step1.2 ++ [SerialAct.openPort c.port c.baud])

/-- `ControllerCh9329.mouse_send_data`.  Returns the Python result
(`some false` for an explicit `return False`, `none` for falling off the end
of the function, i.e. Python `None`) together with the transport trace. -/
def mouseSendData (c : Controller) (buttonName : String) (x y wheel : Int)
    (relative : Bool) : Option Bool × List SerialAct :=
  match c.connection with
  | none => (some false, [])
  | some conn =>
    if conn.isOpen = false then (some false, [])
    else if relative = false then
      (none, [SerialAct.mouseAbsData x y buttonName c.screenX c.screenY wheel])
    else
      (none, [SerialAct.mouseRelData x y buttonName wheel])

/-- `ControllerCh9329.keyboard_send_data`: truncates `keys` to its first 6
elements when longer than 6, `function_keys` to its first 8 when longer than
8, hands them to `keyboard.trigger`, and returns `True`. -/
def keyboardSendData (c : Controller) (keys functionKeys : List String) :
    Option Bool × List SerialAct :=
  match c.connection with
  | none => (some false, [])
  | some conn =>
    if conn.isOpen = false then (some false, [])
    else
      (some true,
        [SerialAct.kbTrigger
          (if keys.length > 6 then keys.take 6 else keys)
          (if functionKeys.length > 8 then functionKeys.take 8 else functionKeys)])

/-- `ControllerCh9329.keyboard_receive_status`.  `reply` is the environment's
answer to `keyboard.receive_indicator_status` (a status flag and the reply
dictionary, modelled as an association list); the initial Python values are
`status = False` and `reply_dict = dict()`. -/
def keyboardReceiveStatus (c : Controller) (reply : Bool × List (String × Bool)) :
    (Bool × List (String × Bool)) × List SerialAct :=
  match c.connection with
  | none => ((false, []), [])
  | some conn =>
    if conn.isOpen = false then ((false, []), [])
    else (reply, [SerialAct.kbReceiveIndicatorStatus])

/-- Outcome of `chip_command.get_product` as observed by `product_info`:
either a product string, or one of the two caught exception classes. -/
inductive ProductReply where
  | ok (s : String)
  | invalidStringEncoding
  | chipBaseError
  deriving DecidableEq, Repr

/-- `ControllerCh9329.product_info`: returns `""` when the connection is
absent or not open; otherwise queries the chip and converts the two caught
exceptions into sentinel strings. -/
def productInfo (c : Controller) (reply : ProductReply) :
    String × List SerialAct :=
  match c.connection with
  | none => ("", [])
  | some conn =>
    if conn.isOpen = false then ("", [])
    else
      match reply with
      | ProductReply.ok s => (s, [SerialAct.chipGetProduct])
      | ProductReply.invalidStringEncoding =>
          ("Invalid string", [SerialAct.chipGetProduct])
      | ProductReply.chipBaseError =>
          ("Unknown error", [SerialAct.chipGetProduct])

/-- `ControllerCh9329.release`: returns immediately when `self.connection is
None`; otherwise dispatches `mouse.release` / `keyboard.release` by release
type.  Note the source checks only for `None`, not for `is_open`. -/
def release (c : Controller) (releaseType : String) : List SerialAct :=
  match c.connection with
  | none => []
  | some _ =>
    if releaseType = "mouse" then [SerialAct.mouseReleaseAll]
    else if releaseType = "keyboard" then [SerialAct.keyboardReleaseAll]
    else if releaseType = "all" ∨ releaseType = "any" then
      [SerialAct.mouseReleaseAll, SerialAct.keyboardReleaseAll]
    else []

/-- `ControllerCh9329.reset_controller`: guards on an absent or non-open
connection returning `False`; on an open connection sends the chip soft-reset
command and falls off the end (Python `None`).  The controller state is
threaded through explicitly: the method never assigns `self.connection`, so
the returned state is the input state. -/
def resetController (c : Controller) :
    Option Bool × Controller × List SerialAct :=
  match c.connection with
  | none => (some false, c, [])
  | some conn =>
    if conn.isOpen = false then (some false, c, [])
    else (none, c, [SerialAct.chipSendReset])

/-!
Geometry of `MyMainWindow.update_mouse_position_buffer_with_absolute_mode`
(`src/client/main.py`).  Python float arithmetic is modelled over `ℚ`.
-/

/-- Inputs read by the absolute-mode mapping: target resolution
(`resolution_x`/`resolution_y` or the disconnect label size), viewport widget
size and position, the `keep_aspect_ratio` flag, the `correction_cursor`
status flag and the configured cursor offsets. -/
structure AbsMapParams where
  xRes : ℚ
  yRes : ℚ
  width : ℚ
  height : ℚ
  xPos : ℚ
  yPos : ℚ
  keepAspect : Bool
  correctionCursor : Bool
  cursorOffsetX : ℚ
  cursorOffsetY : ℚ

/-- The letterbox offsets `x_diff, y_diff` computed when `keep_aspect_ratio`
is set: with `cam_scale = y_res / x_res` and `finder_scale = height / width`,
a proportionally taller viewport (`finder_scale > cam_scale`) pads vertically
and a wider one pads horizontally. -/
def letterboxDiff (p : AbsMapParams) : ℚ × ℚ :=
  if p.keepAspect then
    let camScale := p.yRes / p.xRes
    let finderScale := p.height / p.width
    if camScale < finderScale then (0, p.height - p.width * camScale)
    else if finderScale < camScale then (p.width - p.height / camScale, 0)
    else (0, 0)
  else (0, 0)

/-- The effective x position of the viewport after the optional cursor
correction offset (`x_pos += cursor_offset_x` when `correction_cursor` is
enabled). -/
def effPosX (p : AbsMapParams) : ℚ :=
  if p.correctionCursor then p.xPos + p.cursorOffsetX else p.xPos

/-- The effective y position of the viewport after the optional cursor
correction offset. -/
def effPosY (p : AbsMapParams) : ℚ :=
  if p.correctionCursor then p.yPos + p.cursorOffsetY else p.yPos

/-- `max(min(v, 1), 0)`, the clamp applied to both normalized axes. -/
def clamp01 (v : ℚ) : ℚ := max (min v 1) 0

/-- The normalized point stored by
`update_mouse_position_buffer_with_absolute_mode` for a pointer event at
`(x, y)`:  `x_hid = (x - x_diff/2 - x_pos) / (width - x_diff)` clamped to
`[0,1]`, symmetric for y. -/
def updateMouseAbsolute (p : AbsMapParams) (x y : ℚ) : ℚ × ℚ :=
  let d := letterboxDiff p
  let xHid := (x - d.1 / 2 - effPosX p) / (p.width - d.1)
  let yHid := (y - d.2 / 2 - effPosY p) / (p.height - d.2)
  (clamp01 xHid, clamp01 yHid)

/-!
String expansion of `MyMainWindow.keyboard_send_string`
(`src/client/main.py`).  The trace records the calls to
`update_keyboard_buffer_with_hid_code` (press / release of one HID code),
the per-character sleep, and the two logged skip cases.  The key-name map
and the shift-symbol set live in the `data` package, which is not part of
the sources under verification; both stay abstract parameters.
-/

/-- One emitted keyboard action of the string-typing routine. -/
inductive KeyEvent where
  | keyPress (code : Nat)
  | keyRelease (code : Nat)
  | sleepMs (ms : Nat)
  | skipNonAscii (c : Char)
  | skipUnmapped (c : Char)
  deriving DecidableEq, Repr

/-- Configuration read by `keyboard_send_string`: the character-to-HID-code
map (`.get(character, 0)`, so `0` means absent), membership in the
`SHIFT_SYMBOL` set, the HID codes of `shift` and `caps_lock`, the cached
caps-lock indicator, and the configured per-character paste delay. -/
structure PasteConfig where
  keymap : Char → Nat
  shiftSymbol : Char → Bool
  shiftCode : Nat
  capsCode : Nat
  capsLockOn : Bool
  delayMs : Nat

/-- Python `str.isascii()` for a single character: code point below 128. -/
def pyIsAscii (c : Char) : Bool := c.toNat < 128

/-- Python `str.isupper()` restricted to the ASCII characters that survive
the `isascii` filter: exactly the letters `A`-`Z`. -/
def pyIsUpperAscii (c : Char) : Bool := 65 ≤ c.toNat && c.toNat ≤ 90

/-- The loop body of `keyboard_send_string` for one character: skip (with a
log) non-ASCII characters, compute the shift flag from `SHIFT_SYMBOL`
membership and upper-caseness, look the character up in the key map, skip
(with a log) unmapped characters, and otherwise emit the (possibly
shift-wrapped) press/release pair followed by the paste delay. -/
def sendStringChar (cfg : PasteConfig) (c : Char) : List KeyEvent :=
  if pyIsAscii c = false then [KeyEvent.skipNonAscii c]
  else
    let shiftFlag := cfg.shiftSymbol c || pyIsUpperAscii c
    let keyCode := cfg.keymap c
    if keyCode = 0 then [KeyEvent.skipUnmapped c]
    else if shiftFlag then
      [KeyEvent.keyPress cfg.shiftCode, KeyEvent.keyPress keyCode,
       KeyEvent.keyRelease keyCode, KeyEvent.keyRelease cfg.shiftCode,
       KeyEvent.sleepMs cfg.delayMs]
    else
      [KeyEvent.keyPress keyCode, KeyEvent.keyRelease keyCode,
       KeyEvent.sleepMs cfg.delayMs]

/-- `keyboard_send_string` as a whole: `none` models a failing `assert`
(`assert shift_hid_code != 0` at the top, and `assert key_code != 0` inside
`update_keyboard_indicator_buffer` when the caps-lock fix-up runs); otherwise
the emitted trace is the caps-lock toggle pair (when the indicator cache
reports caps-lock on) followed by the per-character expansions in order. -/
def keyboardSendString (cfg : PasteConfig) (data : List Char) :
    Option (List KeyEvent) :=
  if cfg.shiftCode = 0 then none
  else
    match
      (if cfg.capsLockOn then
        (if cfg.capsCode = 0 then none
         else some [KeyEvent.keyPress cfg.capsCode, KeyEvent.keyRelease cfg.capsCode])
       else some ([] : List KeyEvent)) with
    | none => none
    | some lead => some (lead ++ data.flatMap (sendStringChar cfg))

/-- The per-character expansion exactly as the specification sentence words
it: non-ASCII characters and characters with no key-code mapping are logged
and skipped; an uppercase letter or a shift-required symbol is wrapped as
shift-press, key-press, key-release, shift-release; every other mapped
character is a plain press/release pair; the delay follows each emitted
character.  Used only to compare against `sendStringChar`, which is
translated from the source. -/
def specCharExpansion (cfg : PasteConfig) (c : Char) : List KeyEvent :=
  if pyIsAscii c = false then [KeyEvent.skipNonAscii c]
  else if cfg.keymap c = 0 then [KeyEvent.skipUnmapped c]
  else if pyIsUpperAscii c || cfg.shiftSymbol c then
    [KeyEvent.keyPress cfg.shiftCode, KeyEvent.keyPress (cfg.keymap c),
     KeyEvent.keyRelease (cfg.keymap c), KeyEvent.keyRelease cfg.shiftCode,
     KeyEvent.sleepMs cfg.delayMs]
  else
    [KeyEvent.keyPress (cfg.keymap c), KeyEvent.keyRelease (cfg.keymap c),
     KeyEvent.sleepMs cfg.delayMs]

/-!
Mouse event handling of `MyMainWindow` (`src/client/main.py`): the wheel,
press, release, move and timer handlers, and the mouse-report dispatches
they emit.  The `MouseStateBuffer` class itself lives in the `mouse_buffer`
module, which is not under the verified sources.
-/

/-- Wheel state of the mouse buffer (`MouseWheelStateEnum`). -/
inductive WheelState where
  | up
  | down
  | stop
  deriving DecidableEq, Repr

/-- Logical mouse buttons (`MouseButtonCodeEnum`). -/
inductive MouseBtn where
  | left
  | right
  | middle
  | x1
  | x2
  | unknown
  deriving DecidableEq, Repr

/-- Modelled from the spec: `MouseStateBuffer` (module `mouse_buffer`, not
under the verified sources) holds an independent pressed flag per button, a
wheel state, and the positional state (normalized absolute point or
accumulated relative delta).  `dup()` hands a value snapshot to the
dispatcher. -/
structure MouseStateBuffer where
  buttons : MouseBtn → Bool
  wheel : WheelState
  point : ℚ × ℚ

/-- Modelled from the spec: `MouseStateBuffer.clear_point` resets the
pending positional state. -/
def MouseStateBuffer.clearPoint (b : MouseStateBuffer) : MouseStateBuffer :=
  { b with point := (0, 0) }

/-- Modelled from the spec: `MouseStateBuffer.set_button` records the new
state of one button. -/
def MouseStateBuffer.setButton (b : MouseStateBuffer) (btn : MouseBtn)
    (pressed : Bool) : MouseStateBuffer :=
  { b with buttons := fun x => if x = btn then pressed else b.buttons x }

/-- The two mouse-report commands dispatched to the controller worker. -/
inductive Cmd where
  | mouseRelativeWrite
  | mouseAbsoluteWrite
  deriving DecidableEq, Repr

/-- A dispatched mouse report: command name and the buffer snapshot
(`self.mouse_buffer.dup()`) handed to `command_send_signal.emit`. -/
def Emission : Type := Cmd × MouseStateBuffer

/-- UI status flags read by the handlers (`self.status`): mouse capture,
input blocking, mouse pause and relative mode.  They are toggled by UI
actions outside this slice, so each event carries the values the handler
reads. -/
structure UiFlags where
  mouseCapture : Bool
  blockInput : Bool
  pauseMouse : Bool
  relativeMode : Bool
  camera : Bool
  deriving DecidableEq, Repr

/-- State owned by the main window that the mouse handlers touch: the mouse
buffer, the `mouse_need_report` flag and `mouse_last_pos`. -/
structure UiState where
  buf : MouseStateBuffer
  needReport : Bool
  lastPos : Option (ℚ × ℚ)

/-- The events whose handlers touch the mouse buffer.  `wheel`, `pressBtn`,
`releaseBtn` and `move` are the Qt event handlers; `timerFire` is the
periodic `mouse_timer_report`; `clearMouseBuf` is `clear_mouse_key_buffer`;
`clearBuf` is the `mouse_buffer.clear()` performed by
`controller_device_release`.  Move events carry the geometry inputs and (for
the relative branch) the global cursor and window-middle positions read from
the environment. -/
inductive UiEvent where
  | wheel (fl : UiFlags) (deltaY : Int)
  | timerFire (fl : UiFlags)
  | pressBtn (fl : UiFlags) (b : MouseBtn)
  | releaseBtn (fl : UiFlags) (b : MouseBtn)
  | move (fl : UiFlags) (p : AbsMapParams) (x y : ℚ) (cursorPos middlePos : ℚ × ℚ)
  | clearMouseBuf
  | clearBuf

/-- The wheel-direction mapping of `MyMainWindow.wheelEvent`: an angle-delta
y of exactly `+120` maps to `down`, exactly `-120` to `up`, anything else to
`stop`. -/
def wheelOfDelta (y : Int) : WheelState :=
  if y = 120 then WheelState.down
  else if y = -120 then WheelState.up
  else WheelState.stop

/-- `MyMainWindow.mouse_scroll_report`: picks the command by relative mode,
emits the buffer snapshot, then resets the wheel to `stop`. -/
def mouseScrollReport (fl : UiFlags) (s : UiState) : UiState × List Emission :=
  let cmd := if fl.relativeMode then Cmd.mouseRelativeWrite else Cmd.mouseAbsoluteWrite
  ({ s with buf := { s.buf with wheel := WheelState.stop } }, [(cmd, s.buf)])

/-- `MyMainWindow.mouse_timer_report`: when `mouse_need_report` is set, emits
the buffer snapshot (clearing the pending point in relative mode), and always
lowers `mouse_need_report`. -/
def mouseTimerReport (fl : UiFlags) (s : UiState) : UiState × List Emission :=
  let cmd := if fl.relativeMode then Cmd.mouseRelativeWrite else Cmd.mouseAbsoluteWrite
  if s.needReport then
    let buf2 := if fl.relativeMode then s.buf.clearPoint else s.buf
    ({ s with buf := buf2, needReport := false }, [(cmd, s.buf)])
  else
    ({ s with needReport := false }, [])

/-- `update_mouse_position_buffer_with_relative_mode`: with a previous
cursor position recorded, accumulates the scaled delta into the pending
point (rounded to integers by `int(round(...))`) and recenters the cursor
once it strays more than 25 px from the window middle; on the first sample
it seeds `mouse_last_pos` and clears the pending point. -/
def updateMouseRelative (speed : ℚ) (cursorPos middlePos : ℚ × ℚ)
    (s : UiState) : UiState :=
  match s.lastPos with
  | some lp =>
    let relX := s.buf.point.1 + (cursorPos.1 - lp.1) * speed
    let relY := s.buf.point.2 + (cursorPos.2 - lp.2) * speed
    let s1 : UiState :=
      { s with lastPos := some cursorPos,
               buf := { s.buf with point := ((round relX : ℤ), (round relY : ℤ)) } }
    if 25 < |cursorPos.1 - middlePos.1| ∨ 25 < |cursorPos.2 - middlePos.2| then
      { s1 with lastPos := some middlePos }
    else s1
  | none =>
    { s with lastPos := some middlePos, buf := s.buf.clearPoint }

/-- `MyMainWindow.update_mouse_position_buffer`: absolute or relative update
(the absolute branch first sets `mouse_last_pos = None`), then raises
`mouse_need_report`. -/
def updateMousePosition (fl : UiFlags) (speed : ℚ) (p : AbsMapParams)
    (x y : ℚ) (cursorPos middlePos : ℚ × ℚ) (s : UiState) : UiState :=
  let s1 :=
    if fl.relativeMode = false then
      { s with lastPos := none,
               buf := { s.buf with point := updateMouseAbsolute p x y } }
    else
      updateMouseRelative speed cursorPos middlePos s
  { s1 with needReport := true }

/-- One handler execution: the state transformation and the mouse-report
dispatches it performs, following the source handlers including their
capture / block-input / pause-mouse guards. -/
def step (speed : ℚ) (s : UiState) (ev : UiEvent) : UiState × List Emission :=
  match ev with
  | UiEvent.wheel fl deltaY =>
    if fl.mouseCapture = false then (s, [])
    else if fl.blockInput then (s, [])
    else if fl.pauseMouse then (s, [])
    else
      mouseScrollReport fl { s with buf := { s.buf with wheel := wheelOfDelta deltaY } }
  | UiEvent.timerFire fl => mouseTimerReport fl s
  | UiEvent.pressBtn fl b =>
    if fl.mouseCapture = false ∧ b = MouseBtn.left ∧ fl.camera then (s, [])
    else if fl.mouseCapture = false then (s, [])
    else if fl.blockInput then (s, [])
    else if fl.pauseMouse then (s, [])
    else
      let cmd := if fl.relativeMode then Cmd.mouseRelativeWrite else Cmd.mouseAbsoluteWrite
      let buf1 := s.buf.setButton b true
      let buf2 := if fl.relativeMode then buf1.clearPoint else buf1
      ({ s with buf := buf2 }, [(cmd, buf2)])
  | UiEvent.releaseBtn fl b =>
    if fl.mouseCapture = false then (s, [])
    else if fl.blockInput then (s, [])
    else if fl.pauseMouse then (s, [])
    else
      let cmd := if fl.relativeMode then Cmd.mouseRelativeWrite else Cmd.mouseAbsoluteWrite
      let buf1 := s.buf.setButton b false
      let buf2 := if fl.relativeMode then buf1.clearPoint else buf1
      ({ s with buf := buf2 }, [(cmd, buf2)])
  | UiEvent.move fl p x y cursorPos middlePos =>
    if fl.mouseCapture = false then (s, [])
    else if fl.blockInput then (s, [])
    else if fl.pauseMouse then (s, [])
    else (updateMousePosition fl speed p x y cursorPos middlePos s, [])
  | UiEvent.clearMouseBuf =>
    let buf1 : MouseStateBuffer :=
      { buttons := fun _ => false, wheel := WheelState.stop, point := s.buf.point }
    ({ s with buf := buf1 }, [(Cmd.mouseRelativeWrite, buf1)])
  | UiEvent.clearBuf =>
    ({ s with buf :=
        { buttons := fun _ => false, wheel := WheelState.stop, point := (0, 0) } }, [])

/-- The initial state: fresh buffer, no pending report, no recorded cursor
position. -/
def initUiState : UiState :=
  { buf := { buttons := fun _ => false, wheel := WheelState.stop, point := (0, 0) },
    needReport := false,
    lastPos := none }

/-- States reachable from the initial state by handler executions. -/
inductive Reachable : UiState → Prop where
  | init : Reachable initUiState
  | step (speed : ℚ) (s : UiState) (ev : UiEvent) :
      Reachable s → Reachable (step speed s ev).1

/-!
The delay helpers of `MyMainWindow` (`src/client/main.py`):
`random_sleep_ms` and the `shortcut_key_send` routine built on it.
-/

/-- Result of running a Python snippet that may raise `NameError`. -/
inductive PyResult (α : Type) where
  | ok (a : α)
  | nameError (n : String)
  deriving DecidableEq, Repr

/-- The names bound in the local scope of `random_sleep_ms` once
`random_sleep_time` has been computed: the two parameters and the computed
value.  `interval` is not among them, and module scope of `main.py` binds no
`interval` either. -/
def randomSleepLocals (minI maxI randomSleepTime : Int) : List (String × Int) :=
  [("min_interval", minI), ("max_interval", maxI),
   ("random_sleep_time", randomSleepTime)]

/-- `MyMainWindow.random_sleep_ms`: computes
`random_sleep_time = int(random.uniform(min_interval, max_interval))`
(the sample is environment input) and then evaluates
`QThread.msleep(interval)`; resolving the name `interval` in the local and
module scopes fails, raising `NameError`. -/
def randomSleepMs (minI maxI uniformSample : Int) : PyResult Unit :=
  let randomSleepTime := uniformSample
  match (randomSleepLocals minI maxI randomSleepTime).lookup ("interval") with
  | some _ => PyResult.ok ()
  | none => PyResult.nameError ("interval")

/-- Keyboard actions traced for `shortcut_key_send`: the press and release
reports it pushes through `update_keyboard_buffer_with_hid_code`. -/
inductive ShortcutAct where
  | pressKey (code : Nat)
  | releaseKey (code : Nat)
  deriving DecidableEq, Repr

/-- `MyMainWindow.shortcut_key_send`: maps the key names through
`keyboard_key_name_to_hid_code.get(name, 0)` skipping misses, presses every
code, calls `random_sleep_ms()`, and only then releases every code.  The
result is the trace of performed actions together with the name of the
raised `NameError`, if any: an exception aborts the remaining statements. -/
def shortcutKeySend (keymap : String → Nat) (keys : List String)
    (uniformSample : Int) : List ShortcutAct × Option String :=
  let keyCodeList := (keys.map keymap).filter (fun c => ¬ c = 0)
  let pressActs := keyCodeList.map ShortcutAct.pressKey
  match randomSleepMs 0 100 uniformSample with
  | PyResult.ok _ =>
      (pressActs ++ keyCodeList.map ShortcutAct.releaseKey, none)
  | PyResult.nameError n => (pressActs, some n)

/-- A controller whose connection field holds a handle that is not open. -/
def ctrlClosedHandle : Controller :=
  { port := "COM1", baud := 9600, screenX := 1920, screenY := 1080,
    connection := some { isOpen := false } }

/-- A controller with no connection at all. -/
def ctrlNoConn : Controller :=
  { port := "COM1", baud := 9600, screenX := 1920, screenY := 1080,
    connection := none }

/-- A controller with an open connection. -/
def ctrlOpen : Controller :=
  { port := "COM1", baud := 9600, screenX := 1920, screenY := 1080,
    connection := some { isOpen := true } }

/-- A controller holding an open connection while its configured port string
is empty (reachable through `set_connection_params`). -/
def ctrlEmptyPortOpen : Controller :=
  { port := "", baud := 9600, screenX := 1920, screenY := 1080,
    connection := some { isOpen := true } }

/-- A controller with an empty configured port and no connection. -/
def ctrlEmptyPortClosed : Controller :=
  { port := "", baud := 9600, screenX := 1920, screenY := 1080,
    connection := none }

/-- Concrete flag snapshot: mouse captured, input not blocked, mouse not
paused, absolute mode, camera off. -/
def uiFlagsCaptured : UiFlags :=
  { mouseCapture := true, blockInput := false, pauseMouse := false,
    relativeMode := false, camera := false }

/-- Concrete geometry for the absolute-mapping witness: 1920x1080 content
shown in an 800x600 viewport at position (10, 20) with aspect ratio kept.
The viewport is proportionally taller, so the letterbox pads vertically:
`y_diff = 600 - 800 * (1080/1920) = 150`, `x_diff = 0`. -/
def pC4 : AbsMapParams :=
  { xRes := 1920, yRes := 1080, width := 800, height := 600,
    xPos := 10, yPos := 20, keepAspect := true,
    correctionCursor := false, cursorOffsetX := 0, cursorOffsetY := 0 }

/-- Concrete paste configuration for the string-expansion witness: `H` and
`a` are mapped, `!` is a shift symbol, shift is code 225, caps-lock code 57,
caps-lock indicator on, 7 ms delay. -/
def cfg6 : PasteConfig :=
  { keymap := fun c => if c = 'H' then 11 else if c = 'a' then 4 else 0,
    shiftSymbol := fun c => c = '!',
    shiftCode := 225, capsCode := 57, capsLockOn := true, delayMs := 7 }

/-- Input for the string-expansion witness: an uppercase letter, a plain
letter, a non-ASCII character and an unmapped character. -/
def data6 : List Char := ['H', 'a', '§', 'z']

/-- Claim C1 (as stated) is false: `release` checks only that the connection
is not `None`, never `is_open`, so with a present-but-closed handle it still
performs serial I/O (`mouse.release` and `keyboard.release`). -/
theorem C1_counterexample :
    ¬ release ctrlClosedHandle ("all") = [] ∧
    release ctrlClosedHandle ("all") =
      [SerialAct.mouseReleaseAll, SerialAct.keyboardReleaseAll] := by
  constructor <;> decide

/-- Claim C1 amended: `mouse_send_data`, `keyboard_send_data`,
`keyboard_receive_status` and `product_info` return a failure result without
touching the transport whenever the connection is absent or not open;
`release` short-circuits without transport I/O only when the connection is
absent (`None`). -/
theorem C1_failFast (c : Controller)
    (h : c.connection = none ∨
      ∃ conn, c.connection = some conn ∧ conn.isOpen = false) :
    (∀ bn x y w r, mouseSendData c bn x y w r = (some false, [])) ∧
    (∀ ks fks, keyboardSendData c ks fks = (some false, [])) ∧
    (∀ rep, keyboardReceiveStatus c rep = ((false, []), [])) ∧
    (∀ rep, productInfo c rep = ("", [])) ∧
    (c.connection = none → ∀ rt, release c rt = []) := by
  obtain h | ⟨conn, hc, ho⟩ := h
  · refine ⟨?_, ?_, ?_, ?_, ?_⟩ <;>
      simp [mouseSendData, keyboardSendData, keyboardReceiveStatus,
        productInfo, release, h]
  · refine ⟨?_, ?_, ?_, ?_, ?_⟩ <;>
      simp [mouseSendData, keyboardSendData, keyboardReceiveStatus,
        productInfo, release, hc, ho]

/-- Claim C1 amended, witnessed at a controller with no connection and one
with a closed handle. -/
theorem C1_failFast_witness :
    mouseSendData ctrlNoConn ("left") 1 2 0 false = (some false, []) ∧
    keyboardSendData ctrlClosedHandle ["a"] [] = (some false, []) ∧
    release ctrlNoConn ("all") = [] :=
  ⟨(C1_failFast ctrlNoConn (Or.inl rfl)).1 ("left") 1 2 0 false,
   (C1_failFast ctrlClosedHandle
      (Or.inr ⟨{ isOpen := false }, rfl, rfl⟩)).2.1 ["a"] [],
   (C1_failFast ctrlNoConn (Or.inl rfl)).2.2.2.2 rfl ("all")⟩

/-- Claim C2: with an open connection, `keyboard_send_data` hands the
transport exactly the first 6 elements of `keys` when the list has more than
6 elements (the list unchanged otherwise), the first 8 elements of
`function_keys` when it has more than 8, the truncation is silent (the call
still succeeds), and the call returns `True`. -/
theorem C2_truncation (c : Controller) (conn : SerialConn)
    (h1 : c.connection = some conn) (h2 : conn.isOpen = true)
    (keys functionKeys : List String) :
    keyboardSendData c keys functionKeys =
      (some true,
        [SerialAct.kbTrigger
          (if keys.length > 6 then keys.take 6 else keys)
          (if functionKeys.length > 8 then functionKeys.take 8
           else functionKeys)]) := by
  simp [keyboardSendData, h1, h2]

/-- Claim C2 witnessed on a 7-element key list and a 9-element modifier
list: exactly the first 6 and the first 8 reach the transport, and the call
returns `True`. -/
theorem C2_truncation_witness :
    keyboardSendData ctrlOpen ["a", "b", "c", "d", "e", "f", "g"]
        ["1", "2", "3", "4", "5", "6", "7", "8", "9"] =
      (some true,
        [SerialAct.kbTrigger ["a", "b", "c", "d", "e", "f"]
          ["1", "2", "3", "4", "5", "6", "7", "8"]]) := by
  have h := C2_truncation ctrlOpen { isOpen := true } rfl rfl
    ["a", "b", "c", "d", "e", "f", "g"]
    ["1", "2", "3", "4", "5", "6", "7", "8", "9"]
  simpa using h

/-- Claim C3 (as stated) is false in one corner: when the configured port
string is empty, `create_connection` returns `False` immediately without
touching `self.connection`, so a previously established connection is left
in place (not `None`). -/
theorem C3_counterexample :
    (createConnection ctrlEmptyPortOpen true).1 = false ∧
    ¬ (createConnection ctrlEmptyPortOpen true).2.1.connection = none := by
  constructor <;> decide

/-- Claim C3 amended: with an empty port string, `create_connection` returns
`False` leaving the controller state untouched (so from the closed state it
stays closed); when the transport constructor raises, it returns `False` and
the connection field is `None`; no exception escapes (the model is total);
and it returns `True` exactly when the transport was opened. -/
theorem C3_amended (c : Controller) (openOk : Bool) :
    (c.port = "" → createConnection c openOk = (false, c, [])) ∧
    (¬ c.port = "" → openOk = false →
      (createConnection c openOk).1 = false ∧
      (createConnection c openOk).2.1.connection = none) ∧
    ((createConnection c openOk).1 = true ↔ ¬ c.port = "" ∧ openOk = true) := by
  refine ⟨?_, ?_, ?_⟩
  · intro h
    simp [createConnection, h]
  · intro h h2
    cases hc : c.connection <;>
      simp [createConnection, closeConnection, h, h2, hc]
  · cases hc : c.connection <;> by_cases h : c.port = "" <;>
      cases openOk <;> simp [createConnection, closeConnection, h, hc]

/-- Claim C3 amended, witnessed: an empty port leaves a closed controller
closed, a failing open yields `False` with connection `None`, and a
successful open returns `True`. -/
theorem C3_amended_witness :
    createConnection ctrlEmptyPortClosed false = (false, ctrlEmptyPortClosed, []) ∧
    ((createConnection ctrlNoConn false).1 = false ∧
      (createConnection ctrlNoConn false).2.1.connection = none) ∧
    (createConnection ctrlNoConn true).1 = true :=
  ⟨(C3_amended ctrlEmptyPortClosed false).1 rfl,
   (C3_amended ctrlNoConn false).2.1 (by decide) rfl,
   (C3_amended ctrlNoConn true).2.2.mpr ⟨by decide, rfl⟩⟩

/-- Claim C7 evaluated at the failing input: with an open connection,
`mouse_send_data` sends the report but falls off the end of the function, so
the call evaluates to Python `None` — not the boolean `True` the claim (and
the spec's reply table) promises.  The guard cases do return `False`. -/
theorem C7_mouseSendReturnsNone :
    (mouseSendData ctrlOpen ("left") 100 200 0 false).1 = none ∧
    ¬ (mouseSendData ctrlOpen ("left") 100 200 0 false).1 = some true ∧
    (mouseSendData ctrlOpen ("left") 100 200 0 false).2 =
      [SerialAct.mouseAbsData 100 200 ("left") 1920 1080 0] ∧
    (mouseSendData ctrlNoConn ("left") 100 200 0 false).1 = some false ∧
    (mouseSendData ctrlClosedHandle ("left") 100 200 0 false).1 = some false := by
  refine ⟨?_, ?_, ?_, ?_, ?_⟩ <;> decide

/-- Claim C9: `reset_controller` on an open connection sends only the chip
soft-reset command — the local connection field is unchanged (in particular
its open state), and the trace contains no close or open of the local serial
port. -/
theorem C9_resetFrame (c : Controller) (conn : SerialConn)
    (h1 : c.connection = some conn) (h2 : conn.isOpen = true) :
    (resetController c).2.1 = c ∧
    (resetController c).2.2 = [SerialAct.chipSendReset] ∧
    ¬ SerialAct.closePort ∈ (resetController c).2.2 ∧
    (∀ p b, ¬ SerialAct.openPort p b ∈ (resetController c).2.2) := by
  simp [resetController, h1, h2]

/-- Claim C9 witnessed on a concrete open controller. -/
theorem C9_resetFrame_witness :
    (resetController ctrlOpen).2.1 = ctrlOpen ∧
    (resetController ctrlOpen).2.2 = [SerialAct.chipSendReset] :=
  ⟨(C9_resetFrame ctrlOpen { isOpen := true } rfl rfl).1,
   (C9_resetFrame ctrlOpen { isOpen := true } rfl rfl).2.1⟩

/-- Claim C10: `random_sleep_ms` always raises `NameError` on the unbound
name `interval` (the computed `random_sleep_time` is never used), and
therefore `shortcut_key_send` — which calls it between its press loop and
its release loop — raises on every invocation and never performs any release
action. -/
theorem C10_randomSleepRaises (keymap : String → Nat) (keys : List String)
    (minI maxI uniformSample : Int) :
    randomSleepMs minI maxI uniformSample = PyResult.nameError ("interval") ∧
    (shortcutKeySend keymap keys uniformSample).2 = some ("interval") ∧
    (∀ code, ¬ ShortcutAct.releaseKey code ∈ (shortcutKeySend keymap keys uniformSample).1) := by
  refine ⟨rfl, rfl, ?_⟩
  intro code
  have h : (shortcutKeySend keymap keys uniformSample).1 =
      ((keys.map keymap).filter (fun c => ¬ c = 0)).map ShortcutAct.pressKey := rfl
  rw [h]
  simp

/-- In every reachable state the wheel state is neutral: `wheelEvent` is the
only handler that raises it, and it synchronously runs
`mouse_scroll_report`, which resets the wheel to `stop` right after the
dispatch.  Helper invariant shared by the wheel theorems. -/
theorem wheel_stop_invariant (s : UiState) (h : Reachable s) :
    s.buf.wheel = WheelState.stop := by
  induction h with
  | init => rfl
  | step speed s ev _ ih =>
    cases ev with
    | wheel fl deltaY =>
      by_cases h1 : fl.mouseCapture = false
      · simpa [step, h1] using ih
      · by_cases h2 : fl.blockInput
        · simpa [step, h1, h2] using ih
        · by_cases h3 : fl.pauseMouse
          · simpa [step, h1, h2, h3] using ih
          · simp [step, h1, h2, h3, mouseScrollReport]
    | timerFire fl =>
      by_cases h1 : s.needReport
      · cases h2 : fl.relativeMode <;>
          simpa [step, mouseTimerReport, h1, h2, MouseStateBuffer.clearPoint]
            using ih
      · simpa [step, mouseTimerReport, h1] using ih
    | pressBtn fl b =>
      by_cases h0 : fl.mouseCapture = false ∧ b = MouseBtn.left ∧ fl.camera
      · simpa [step, h0] using ih
      · by_cases h1 : fl.mouseCapture = false
        · simpa [step, h0, h1] using ih
        · by_cases h2 : fl.blockInput
          · simpa [step, h0, h1, h2] using ih
          · by_cases h3 : fl.pauseMouse
            · simpa [step, h0, h1, h2, h3] using ih
            · cases h4 : fl.relativeMode <;>
                simpa [step, h0, h1, h2, h3, h4, MouseStateBuffer.setButton,
                  MouseStateBuffer.clearPoint] using ih
    | releaseBtn fl b =>
      by_cases h1 : fl.mouseCapture = false
      · simpa [step, h1] using ih
      · by_cases h2 : fl.blockInput
        · simpa [step, h1, h2] using ih
        · by_cases h3 : fl.pauseMouse
          · simpa [step, h1, h2, h3] using ih
          · cases h4 : fl.relativeMode <;>
              simpa [step, h1, h2, h3, h4, MouseStateBuffer.setButton,
                MouseStateBuffer.clearPoint] using ih
    | move fl p x y cursorPos middlePos =>
      by_cases h1 : fl.mouseCapture = false
      · simpa [step, h1] using ih
      · by_cases h2 : fl.blockInput
        · simpa [step, h1, h2] using ih
        · by_cases h3 : fl.pauseMouse
          · simpa [step, h1, h2, h3] using ih
          · by_cases h4 : fl.relativeMode = false
            · simpa [step, h1, h2, h3, h4, updateMousePosition] using ih
            · cases h5 : s.lastPos with
              | none =>
                simpa [step, h1, h2, h3, h4, updateMousePosition,
                  updateMouseRelative, h5, MouseStateBuffer.clearPoint] using ih
              | some lp =>
                by_cases h6 : 25 < |cursorPos.1 - middlePos.1| ∨
                    25 < |cursorPos.2 - middlePos.2|
                · simpa [step, h1, h2, h3, h4, updateMousePosition,
                    updateMouseRelative, h5, h6] using ih
                · simpa [step, h1, h2, h3, h4, updateMousePosition,
                    updateMouseRelative, h5, h6] using ih
    | clearMouseBuf => simp [step]
    | clearBuf => simp [step]

/-- Claim C5: over all reachable states of the mouse-handling slice, every
dispatched `mouse_relative_write` / `mouse_absolute_write` whose payload
carries a non-neutral wheel value leaves the wheel state neutral immediately
after the handler's dispatch — on the scroll path by the explicit reset in
`mouse_scroll_report`, and on every other path (including the periodic
`mouse_timer_report` flush) because a non-neutral wheel can never survive to
it. -/
theorem C5_wheelResetAfterDispatch (s : UiState) (hs : Reachable s)
    (speed : ℚ) (ev : UiEvent) (em : Cmd × MouseStateBuffer)
    (hmem : em ∈ (step speed s ev).2)
    (hw : ¬ em.2.wheel = WheelState.stop) :
    (step speed s ev).1.buf.wheel = WheelState.stop := by
  have inv := wheel_stop_invariant s hs
  cases ev with
  | wheel fl deltaY =>
    by_cases h1 : fl.mouseCapture = false
    · simp [step, h1] at hmem
    · by_cases h2 : fl.blockInput
      · simp [step, h1, h2] at hmem
      · by_cases h3 : fl.pauseMouse
        · simp [step, h1, h2, h3] at hmem
        · simp [step, h1, h2, h3, mouseScrollReport]
  | timerFire fl =>
    by_cases h1 : s.needReport
    · exfalso
      apply hw
      have hm2 : em = ((if fl.relativeMode then Cmd.mouseRelativeWrite
          else Cmd.mouseAbsoluteWrite), s.buf) := by
        simpa [step, mouseTimerReport, h1] using hmem
      rw [hm2]
      exact inv
    · simp [step, mouseTimerReport, h1] at hmem
  | pressBtn fl b =>
    exfalso
    apply hw
    by_cases h0 : fl.mouseCapture = false ∧ b = MouseBtn.left ∧ fl.camera
    · simp [step, h0] at hmem
    · by_cases h1 : fl.mouseCapture = false
      · simp [step, h0, h1] at hmem
      · by_cases h2 : fl.blockInput
        · simp [step, h0, h1, h2] at hmem
        · by_cases h3 : fl.pauseMouse
          · simp [step, h0, h1, h2, h3] at hmem
          · cases h4 : fl.relativeMode <;>
              [skip; skip] <;>
              · simp [step, h0, h1, h2, h3, h4] at hmem
                rw [hmem]
                simpa [MouseStateBuffer.setButton, MouseStateBuffer.clearPoint]
                  using inv
  | releaseBtn fl b =>
    exfalso
    apply hw
    by_cases h1 : fl.mouseCapture = false
    · simp [step, h1] at hmem
    · by_cases h2 : fl.blockInput
      · simp [step, h1, h2] at hmem
      · by_cases h3 : fl.pauseMouse
        · simp [step, h1, h2, h3] at hmem
        · cases h4 : fl.relativeMode <;>
            [skip; skip] <;>
            · simp [step, h1, h2, h3, h4] at hmem
              rw [hmem]
              simpa [MouseStateBuffer.setButton, MouseStateBuffer.clearPoint]
                using inv
  | move fl p x y cursorPos middlePos =>
    by_cases h1 : fl.mouseCapture = false
    · simp [step, h1] at hmem
    · by_cases h2 : fl.blockInput
      · simp [step, h1, h2] at hmem
      · by_cases h3 : fl.pauseMouse
        · simp [step, h1, h2, h3] at hmem
        · simp [step, h1, h2, h3] at hmem
  | clearMouseBuf =>
    exfalso
    apply hw
    have hm2 : em = (Cmd.mouseRelativeWrite,
        { buttons := fun _ => false, wheel := WheelState.stop,
          point := s.buf.point }) := by
      simpa [step] using hmem
    rw [hm2]
  | clearBuf => simp [step] at hmem

/-- Claim C5 witnessed: from the initial state, a wheel event with
angle-delta `+120` dispatches a payload whose wheel is `down` (non-neutral),
and the wheel state right after the handler is `stop`. -/
theorem C5_wheelResetAfterDispatch_witness :
    (step 1 initUiState (UiEvent.wheel uiFlagsCaptured 120)).1.buf.wheel =
      WheelState.stop :=
  C5_wheelResetAfterDispatch initUiState Reachable.init 1
    (UiEvent.wheel uiFlagsCaptured 120)
    (Cmd.mouseAbsoluteWrite, { initUiState.buf with wheel := WheelState.down })
    (List.mem_singleton.mpr rfl) (by decide)

/-- Claim C8: the payload dispatched by `wheelEvent` (when the capture,
block-input and pause-mouse guards pass) carries the wheel state assigned by
the observed inverted mapping: angle-delta `+120` gives `down`, `-120` gives
`up`, and every other value gives `stop`. -/
theorem C8_wheelDirection (speed : ℚ) (s : UiState) (fl : UiFlags) (y : Int)
    (hc : fl.mouseCapture = true) (hb : fl.blockInput = false)
    (hp : fl.pauseMouse = false) :
    (step speed s (UiEvent.wheel fl y)).2 =
      [((if fl.relativeMode then Cmd.mouseRelativeWrite
         else Cmd.mouseAbsoluteWrite),
        { s.buf with wheel := wheelOfDelta y })] ∧
    wheelOfDelta 120 = WheelState.down ∧
    wheelOfDelta (-120) = WheelState.up ∧
    (∀ z : Int, ¬ z = 120 → ¬ z = -120 → wheelOfDelta z = WheelState.stop) := by
  refine ⟨?_, rfl, rfl, ?_⟩
  · simp [step, hc, hb, hp, mouseScrollReport]
  · intro z h1 h2
    simp [wheelOfDelta, h1, h2]

/-- Claim C8 witnessed: a `+120` wheel event in absolute mode dispatches an
absolute write whose payload wheel is `down`. -/
theorem C8_wheelDirection_witness :
    (step 1 initUiState (UiEvent.wheel uiFlagsCaptured 120)).2 =
      [(Cmd.mouseAbsoluteWrite,
        { initUiState.buf with wheel := WheelState.down })] := by
  have h := C8_wheelDirection 1 initUiState uiFlagsCaptured 120 rfl rfl rfl
  simpa [uiFlagsCaptured, wheelOfDelta] using h.1

/-- The clamp always lands in `[0,1]`. -/
theorem clamp01_mem (v : ℚ) : 0 ≤ clamp01 v ∧ clamp01 v ≤ 1 := by
  unfold clamp01
  exact ⟨le_max_right _ _, max_le (min_le_right _ _) zero_le_one⟩

/-- A negative value clamps to exactly `0`. -/
theorem clamp01_of_neg {v : ℚ} (h : v < 0) : clamp01 v = 0 := by
  unfold clamp01
  rw [min_eq_left (le_of_lt (lt_of_lt_of_le h zero_le_one))]
  exact max_eq_right (le_of_lt h)

/-- A value above one clamps to exactly `1`. -/
theorem clamp01_of_one_lt {v : ℚ} (h : 1 < v) : clamp01 v = 1 := by
  unfold clamp01
  rw [min_eq_right (le_of_lt h)]
  exact max_eq_left zero_le_one

/-- Claim C4: the stored point of the absolute-mode mapping equals, on each
axis, `clamp((p - diff/2 - viewport_pos) / (viewport_extent - diff), 0, 1)`;
it never leaves `[0,1]`; a pointer position outside the letterboxed content
area yields exactly `0` or `1` on the affected axis; and the letterbox
offset is computed only on the padded axis when `keep_aspect_ratio` is set —
a proportionally wider viewport pads horizontally
(`height * x_res < width * y_res`), a taller one vertically. -/
theorem C4_absoluteMapping (p : AbsMapParams) (x y : ℚ) :
    updateMouseAbsolute p x y =
      (clamp01 ((x - (letterboxDiff p).1 / 2 - effPosX p) /
          (p.width - (letterboxDiff p).1)),
       clamp01 ((y - (letterboxDiff p).2 / 2 - effPosY p) /
          (p.height - (letterboxDiff p).2))) ∧
    (0 ≤ (updateMouseAbsolute p x y).1 ∧ (updateMouseAbsolute p x y).1 ≤ 1 ∧
     0 ≤ (updateMouseAbsolute p x y).2 ∧ (updateMouseAbsolute p x y).2 ≤ 1) ∧
    (0 < p.width - (letterboxDiff p).1 →
      (x < effPosX p + (letterboxDiff p).1 / 2 →
        (updateMouseAbsolute p x y).1 = 0) ∧
      (effPosX p + (letterboxDiff p).1 / 2 + (p.width - (letterboxDiff p).1) < x →
        (updateMouseAbsolute p x y).1 = 1)) ∧
    (0 < p.height - (letterboxDiff p).2 →
      (y < effPosY p + (letterboxDiff p).2 / 2 →
        (updateMouseAbsolute p x y).2 = 0) ∧
      (effPosY p + (letterboxDiff p).2 / 2 + (p.height - (letterboxDiff p).2) < y →
        (updateMouseAbsolute p x y).2 = 1)) ∧
    (p.keepAspect = false → letterboxDiff p = (0, 0)) ∧
    (p.keepAspect = true → 0 < p.width → 0 < p.height → 0 < p.xRes → 0 < p.yRes →
      (p.width * p.yRes < p.height * p.xRes →
        (letterboxDiff p).1 = 0 ∧ 0 < (letterboxDiff p).2) ∧
      (p.height * p.xRes < p.width * p.yRes →
        (letterboxDiff p).2 = 0 ∧ 0 < (letterboxDiff p).1)) := by
  refine ⟨rfl, ⟨?_, ?_, ?_, ?_⟩, ?_, ?_, ?_, ?_⟩
  · exact (clamp01_mem _).1
  · exact (clamp01_mem _).2
  · exact (clamp01_mem _).1
  · exact (clamp01_mem _).2
  · intro hd
    constructor
    · intro hx
      have hnum : x - (letterboxDiff p).1 / 2 - effPosX p < 0 := by linarith
      exact clamp01_of_neg (div_neg_of_neg_of_pos hnum hd)
    · intro hx
      have hnum : p.width - (letterboxDiff p).1 <
          x - (letterboxDiff p).1 / 2 - effPosX p := by linarith
      exact clamp01_of_one_lt ((one_lt_div hd).mpr hnum)
  · intro hd
    constructor
    · intro hy
      have hnum : y - (letterboxDiff p).2 / 2 - effPosY p < 0 := by linarith
      exact clamp01_of_neg (div_neg_of_neg_of_pos hnum hd)
    · intro hy
      have hnum : p.height - (letterboxDiff p).2 <
          y - (letterboxDiff p).2 / 2 - effPosY p := by linarith
      exact clamp01_of_one_lt ((one_lt_div hd).mpr hnum)
  · intro hka
    simp [letterboxDiff, hka]
  · intro hka hw hh hxr hyr
    constructor
    · intro hlt
      have hcf : p.yRes / p.xRes < p.height / p.width := by
        rw [div_lt_div_iff₀ hxr hw]
        linarith [hlt]
      constructor
      · simp [letterboxDiff, hka, hcf]
      · have : p.width * (p.yRes / p.xRes) < p.height := by
          rw [mul_div_assoc', div_lt_iff₀ hxr]
          linarith [hlt]
        simp only [letterboxDiff, hka, if_true, hcf, if_pos]
        linarith [this]
    · intro hlt
      have hcf : p.height / p.width < p.yRes / p.xRes := by
        rw [div_lt_div_iff₀ hw hxr]
        linarith [hlt]
      have hncf : ¬ p.yRes / p.xRes < p.height / p.width := not_lt_of_lt hcf
      constructor
      · simp [letterboxDiff, hka, hncf, hcf]
      · have hcs : 0 < p.yRes / p.xRes := div_pos hyr hxr
        have : p.height / (p.yRes / p.xRes) < p.width := by
          rw [div_lt_iff₀ hcs, mul_div_assoc', lt_div_iff₀ hxr]
          linarith [hlt]
        simp only [letterboxDiff, hka, if_true, hncf, if_neg, hcf, if_pos,
          not_false_eq_true]
        linarith [this]

/-- Claim C4 witnessed on the concrete geometry `pC4`: the pointer position
`(5, 1000)` lies left of and below the letterboxed content area, and the
stored point is exactly `(0, 1)`. -/
theorem C4_absoluteMapping_witness : updateMouseAbsolute pC4 5 1000 = (0, 1) := by
  have hd : letterboxDiff pC4 = (0, 150) := by
    norm_num [letterboxDiff, pC4]
  have h := C4_absoluteMapping pC4 5 1000
  have h0 : (updateMouseAbsolute pC4 5 1000).1 = 0 :=
    (h.2.2.1 (by rw [hd]; norm_num [pC4])).1
      (by rw [hd]; norm_num [effPosX, pC4])
  have h1 : (updateMouseAbsolute pC4 5 1000).2 = 1 :=
    (h.2.2.2.1 (by rw [hd]; norm_num [pC4])).2
      (by rw [hd]; norm_num [effPosY, pC4])
  rw [Prod.ext_iff]
  exact ⟨h0, h1⟩

/-- The loop body of `keyboard_send_string` emits exactly what the
specification's per-character case analysis describes (the source computes
the shift flag before the key-map lookup and with the disjuncts in the other
order). -/
theorem sendStringChar_eq_spec (cfg : PasteConfig) (c : Char) :
    sendStringChar cfg c = specCharExpansion cfg c := by
  unfold sendStringChar specCharExpansion
  by_cases ha : pyIsAscii c = false
  · simp [ha]
  · by_cases hk : cfg.keymap c = 0
    · simp [ha, hk]
    · by_cases hs : (cfg.shiftSymbol c || pyIsUpperAscii c) = true
      · have hs2 : (pyIsUpperAscii c || cfg.shiftSymbol c) = true := by
          rw [Bool.or_comm]
          exact hs
        simp [ha, hk, hs, hs2]
      · have hs2 : ¬ (pyIsUpperAscii c || cfg.shiftSymbol c) = true := by
          rw [Bool.or_comm]
          exact hs
        simp [ha, hk, hs, hs2]

/-- Claim C6: `keyboard_send_string` (given that the `shift` and `caps_lock`
codes exist, i.e. its asserts pass) processes characters in order; when the
indicator cache reports caps-lock on it first emits one caps-lock toggle
(press+release) before any character; each non-ASCII character and each
character with no key-code mapping is logged and skipped while the remaining
characters are still sent; each mapped uppercase letter or shift-required
symbol is wrapped as shift-press, key-press, key-release, shift-release;
every other mapped character is a plain press/release pair; and the
per-character delay follows each emitted character. -/
theorem C6_stringExpansion (cfg : PasteConfig) (data : List Char)
    (hs : ¬ cfg.shiftCode = 0) (hc : ¬ cfg.capsCode = 0) :
    keyboardSendString cfg data =
      some ((if cfg.capsLockOn then
              [KeyEvent.keyPress cfg.capsCode, KeyEvent.keyRelease cfg.capsCode]
            else []) ++ data.flatMap (specCharExpansion cfg)) := by
  have hfun : sendStringChar cfg = specCharExpansion cfg :=
    funext (sendStringChar_eq_spec cfg)
  unfold keyboardSendString
  rw [hfun]
  cases hcl : cfg.capsLockOn <;> simp [hs, hc, hcl]

/-- Claim C6 witnessed on `"Ha§z"` with caps-lock on: caps toggle first,
shift-wrapped `H`, plain `a` (each followed by the delay), the non-ASCII
character and the unmapped character skipped. -/
theorem C6_stringExpansion_witness :
    keyboardSendString cfg6 data6 =
      some [KeyEvent.keyPress 57, KeyEvent.keyRelease 57,
            KeyEvent.keyPress 225, KeyEvent.keyPress 11,
            KeyEvent.keyRelease 11, KeyEvent.keyRelease 225,
            KeyEvent.sleepMs 7,
            KeyEvent.keyPress 4, KeyEvent.keyRelease 4, KeyEvent.sleepMs 7,
            KeyEvent.skipNonAscii '§', KeyEvent.skipUnmapped 'z'] := by
  have h := C6_stringExpansion cfg6 data6 (by decide) (by decide)
  rw [h]
  rfl

end KVM
